/-
Verification development for the roamer/vercept desktop-automation agent.

The definitions below are a shallow embedding of the Python sources:
  src/vercept/memory.py        (TaskMemory and its serialization)
  src/vercept/safety.py        (SafetyGuard)
  src/vercept/screen_diff.py   (compare_screens)
  src/vercept/state_verifier.py (quick_verify)
  src/vercept/agent.py         (one iteration of Agent._run_loop)
  src/config.py                (VerceptConfig)

Conventions used throughout:
  - Python floats are modelled as rationals (ℚ); the claims under study only
    compare these values, they never exercise floating-point rounding.
  - Python dicts produced by the planner (actions) are modelled as a record of
    optional fields, one per key that the code reads; a `none` field models an
    absent key, mirroring dict.get semantics.
  - Console printing and audit-file writes are side effects with no influence
    on any return value, and are omitted.
  - External collaborators (VLM planner, executor, screen capture, the user
    confirmation prompt, the wall clock) are supplied as explicit oracle
    inputs to the control-loop step function.
-/
import Mathlib

namespace Vercept

/-- Parameter payload of a planned action.  Models the `params` dict: each
field corresponds to a key the Python code reads; `none` models an absent
key (so `params.get(k, d)` becomes `field.getD d`). -/
structure Params where
  text : Option String := none
  key : Option String := none
  keys : Option (List String) := none
  file_path : Option String := none
  app_name : Option String := none
  seconds : Option ℚ := none

/-- Empty params dict, the `{}` default of `action.get("params", {})`. -/
def Params.empty : Params := {}

/-- A planned action as returned by the planner.  Models the action dict with
one optional field per key the code reads (absent key = `none`).  The
`fallback_action` value is itself an action-shaped dict, hence the recursive
occurrence. -/
inductive PAction where
  | mk
    (action_type : Option String)
    (params : Option Params)
    (reasoning : Option String)
    (is_final : Option Bool)
    (confidence : Option String)
    (fallback_action : Option PAction)

def PAction.action_type : PAction → Option String
  | .mk a _ _ _ _ _ => a

def PAction.params : PAction → Option Params
  | .mk _ p _ _ _ _ => p

def PAction.reasoning : PAction → Option String
  | .mk _ _ r _ _ _ => r

def PAction.is_final : PAction → Option Bool
  | .mk _ _ _ f _ _ => f

def PAction.confidence : PAction → Option String
  | .mk _ _ _ _ c _ => c

def PAction.fallback_action : PAction → Option PAction
  | .mk _ _ _ _ _ fb => fb

/-- Python truthiness of an action-shaped dict: a dict is truthy iff it is
non-empty, i.e. at least one of its (modelled) keys is present. -/
def PAction.isTruthy (a : PAction) : Bool :=
  a.action_type.isSome || a.params.isSome || a.reasoning.isSome ||
  a.is_final.isSome || a.confidence.isSome || a.fallback_action.isSome

/- ────────────────────────────────────────────────────────────────────────
   TaskMemory  (src/vercept/memory.py)
   ──────────────────────────────────────────────────────────────────────── -/

/-- One entry of `actions_taken`, exactly the dict built by
`TaskMemory.add_action` (memory.py lines 38-45). -/
structure ActionRecord where
  action_type : String
  params : Params
  reasoning : String
  result : String
  success : Bool
  timestamp : ℚ

/-- The TaskMemory dataclass (memory.py lines 6-21).  Field defaults mirror
the dataclass defaults; `task_id` and `started_at` are generated externally
(uuid / clock) and are therefore constructor arguments of `fresh`. -/
structure TaskMemory where
  instruction : String
  actions_taken : List ActionRecord := []
  task_id : String
  started_at : ℚ
  completed : Bool := false
  consecutive_failures : Nat := 0
  failed_actions : List ActionRecord := []
  resumed : Bool := false

/-- Construction `TaskMemory(instruction=instruction)` with the generated
uuid and clock value passed explicitly. -/
def TaskMemory.fresh (instruction task_id : String) (started_at : ℚ) : TaskMemory :=
  { instruction := instruction, task_id := task_id, started_at := started_at }

/-- memory.py `add_action` (lines 23-54).  `now` is the `time.time()` value
used for the entry timestamp.  In the source `success` defaults to True and
`neutral` to False; every call site in scope passes them explicitly or
relies on those defaults, which callers of this function spell out. -/
def TaskMemory.add_action (m : TaskMemory) (action : PAction) (result : String)
    (success : Bool) (neutral : Bool) (now : ℚ) : TaskMemory :=
  let entry : ActionRecord :=
    { action_type := action.action_type.getD ""
      params := action.params.getD Params.empty
      reasoning := action.reasoning.getD ""
      result := result
      success := success
      timestamp := now }
  let m := { m with actions_taken := m.actions_taken ++ [entry] }
  if !neutral then
    if !success then
      { m with consecutive_failures := m.consecutive_failures + 1
               failed_actions := m.failed_actions ++ [entry] }
    else
      { m with consecutive_failures := 0, failed_actions := [] }
  else m

/-- memory.py `action_count` property (lines 94-96). -/
def TaskMemory.action_count (m : TaskMemory) : Nat := m.actions_taken.length

/-- The serialized session record produced by `to_dict` (memory.py lines
102-121).  One field per dict key. -/
structure SessionRecord where
  task_id : String
  instruction : String
  actions : List ActionRecord
  action_count : Nat
  started_at : ℚ
  completed : Bool

/-- memory.py `to_dict` (lines 102-121).  Each serialized action rebuilds the
six fields of the entry, as the source does field by field. -/
def TaskMemory.to_dict (m : TaskMemory) : SessionRecord :=
  { task_id := m.task_id
    instruction := m.instruction
    actions := m.actions_taken.map (fun a =>
      { action_type := a.action_type
        params := a.params
        reasoning := a.reasoning
        result := a.result
        success := a.success
        timestamp := a.timestamp })
    action_count := m.action_count
    started_at := m.started_at
    completed := m.completed }

/-- memory.py `from_dict` (lines 123-143).  The restored memory gets the
dataclass defaults for the fields `from_dict` does not pass — in particular
`consecutive_failures = 0` and `failed_actions = []` — and `resumed := true`.
Each action entry is rebuilt field by field as in the source loop. -/
def TaskMemory.from_dict (d : SessionRecord) : TaskMemory :=
  { instruction := d.instruction
    task_id := d.task_id
    started_at := d.started_at
    completed := d.completed
    resumed := true
    actions_taken := d.actions.map (fun a =>
      { action_type := a.action_type
        params := a.params
        reasoning := a.reasoning
        result := a.result
        success := a.success
        timestamp := a.timestamp }) }

/- ────────────────────────────────────────────────────────────────────────
   Call sequences into add_action, for the failure-streak characterization
   ──────────────────────────────────────────────────────────────────────── -/

/-- One call to `add_action`: the arguments of the call. -/
structure CallSpec where
  action : PAction
  result : String
  success : Bool
  neutral : Bool
  now : ℚ

/-- Fold a sequence of `add_action` calls over a memory. -/
def runCalls (m : TaskMemory) (calls : List CallSpec) : TaskMemory :=
  calls.foldl (fun acc c => acc.add_action c.action c.result c.success c.neutral c.now) m

/-- Number of trailing non-neutral failures since the last non-neutral
success, reading the (reversed) call list from the most recent call
backwards: neutral calls are skipped, failures count, a success stops. -/
def trailingFailuresRev : List CallSpec → Nat
  | [] => 0
  | c :: rest =>
    if c.neutral then trailingFailuresRev rest
    else if c.success then 0
    else trailingFailuresRev rest + 1

/-- Number of trailing non-neutral failures since the last non-neutral
success of a call list, in chronological order. -/
def trailingFailures (calls : List CallSpec) : Nat :=
  trailingFailuresRev calls.reverse

theorem add_action_neutral (m : TaskMemory) (a : PAction) (r : String)
    (s : Bool) (now : ℚ) :
    (m.add_action a r s true now).consecutive_failures = m.consecutive_failures := by
  simp [TaskMemory.add_action]

theorem add_action_failure (m : TaskMemory) (a : PAction) (r : String) (now : ℚ) :
    (m.add_action a r false false now).consecutive_failures
      = m.consecutive_failures + 1 := by
  simp [TaskMemory.add_action]

theorem add_action_success (m : TaskMemory) (a : PAction) (r : String) (now : ℚ) :
    (m.add_action a r true false now).consecutive_failures = 0 := by
  simp [TaskMemory.add_action]

theorem runCalls_append_one (m : TaskMemory) (cs : List CallSpec) (c : CallSpec) :
    runCalls m (cs ++ [c])
      = (runCalls m cs).add_action c.action c.result c.success c.neutral c.now := by
  simp [runCalls]

theorem trailingFailures_append_one (cs : List CallSpec) (c : CallSpec) :
    trailingFailures (cs ++ [c])
      = if c.neutral then trailingFailures cs
        else if c.success then 0
        else trailingFailures cs + 1 := by
  simp [trailingFailures, trailingFailuresRev]

/-- Claim C1: a neutral call to `TaskMemory.add_action` leaves
`consecutive_failures` unchanged; a non-neutral failed call increments it by
exactly 1; a non-neutral successful call resets it to 0; consequently, after
any sequence of calls starting from a fresh memory, `consecutive_failures`
equals the number of trailing non-neutral failures since the last
non-neutral success. -/
theorem consecutive_failures_invariant :
    (∀ (m : TaskMemory) (a : PAction) (r : String) (s : Bool) (now : ℚ),
      (m.add_action a r s true now).consecutive_failures = m.consecutive_failures)
    ∧ (∀ (m : TaskMemory) (a : PAction) (r : String) (now : ℚ),
      (m.add_action a r false false now).consecutive_failures
        = m.consecutive_failures + 1)
    ∧ (∀ (m : TaskMemory) (a : PAction) (r : String) (now : ℚ),
      (m.add_action a r true false now).consecutive_failures = 0)
    ∧ (∀ (instr tid : String) (t0 : ℚ) (calls : List CallSpec),
      (runCalls (TaskMemory.fresh instr tid t0) calls).consecutive_failures
        = trailingFailures calls) := by
  refine ⟨add_action_neutral, add_action_failure, add_action_success, ?_⟩
  intro instr tid t0 calls
  induction calls using List.reverseRecOn with
  | nil => simp [runCalls, trailingFailures, trailingFailuresRev, TaskMemory.fresh]
  | append_singleton cs c ih =>
    rw [runCalls_append_one, trailingFailures_append_one]
    rcases hn : c.neutral with _ | _
    · rcases hs : c.success with _ | _
      · simp [hn, hs, add_action_failure, ih]
      · simp [hn, hs, add_action_success]
    · simp [hn, add_action_neutral, ih]

/-- Rebuilding an ActionRecord field by field is the identity. -/
theorem actionRecord_rebuild (l : List ActionRecord) :
    l.map (fun a =>
      ({ action_type := a.action_type
         params := a.params
         reasoning := a.reasoning
         result := a.result
         success := a.success
         timestamp := a.timestamp } : ActionRecord)) = l := by
  induction l with
  | nil => rfl
  | cons a t ih => simp [ih]

/-- Claim C3: serializing a TaskMemory via `to_dict` and reconstructing via
`from_dict` yields a memory with the same number of action records, with all
six fields of every record identical (the record lists are equal), with
`resumed = true`, and with the same `task_id`. -/
theorem session_round_trip (m : TaskMemory) :
    ((TaskMemory.from_dict m.to_dict).actions_taken.length = m.actions_taken.length)
    ∧ (TaskMemory.from_dict m.to_dict).actions_taken = m.actions_taken
    ∧ (TaskMemory.from_dict m.to_dict).resumed = true
    ∧ (TaskMemory.from_dict m.to_dict).task_id = m.task_id := by
  refine ⟨?_, ?_, rfl, rfl⟩ <;>
    simp [TaskMemory.from_dict, TaskMemory.to_dict, actionRecord_rebuild]

/-- Claim C10: for every serialized session record, `from_dict` yields a
memory with `consecutive_failures = 0` and an empty `failed_actions` list,
regardless of the actions the record contains — the serialized form carries
no failure counters, so a resumed run restarts its fallback/abort accounting
from zero. -/
theorem from_dict_resets_failure_counters (d : SessionRecord) :
    (TaskMemory.from_dict d).consecutive_failures = 0
    ∧ (TaskMemory.from_dict d).failed_actions = [] := by
  exact ⟨rfl, rfl⟩

/- ────────────────────────────────────────────────────────────────────────
   VerceptConfig  (src/config.py lines 7-48)
   ──────────────────────────────────────────────────────────────────────── -/

/-- The VerceptConfig dataclass.  Field names, order and defaults follow
config.py exactly; floats are rationals, ints are naturals. -/
structure VerceptConfig where
  openai_api_key : String
  model : String := "gpt-4o"
  screenshot_scale : ℚ := 1/2
  action_delay : ℚ := 1/2
  max_actions_per_task : Nat := 50
  max_retries : Nat := 3
  confirmation_required : Bool := true
  ocr_enabled : Bool := true
  dry_run : Bool := false
  max_task_duration : Nat := 1800
  action_timeout : Nat := 30
  app_blacklist : List String :=
    ["System Preferences", "System Settings", "Keychain Access", "Passwords"]
  app_whitelist : Option (List String) := none
  confirm_file_operations : Bool := true
  enable_audit_logging : Bool := true
  audit_log_path : String := "~/.vercept/audit.log"
  session_storage_enabled : Bool := true
  session_dir : String := "~/.vercept/sessions"
  change_detection_threshold : ℚ := 2/100
  key_press_delay : ℚ := 5/100
  file_dialog_timeout : ℚ := 5

/-- Value of a VerceptConfig attribute, for modelling Python attribute
lookup on the dataclass instance. -/
inductive AttrVal where
  | s (v : String)
  | q (v : ℚ)
  | n (v : Nat)
  | b (v : Bool)
  | strs (v : List String)
  | optStrs (v : Option (List String))

/-- Python attribute lookup on a VerceptConfig instance: `getattr c name`
returns the value when `name` is one of the dataclass fields declared in
config.py, and `none` otherwise — the `none` case is where the interpreter
raises AttributeError.  The table lists every field of the dataclass. -/
def VerceptConfig.getattr (c : VerceptConfig) (name : String) : Option AttrVal :=
  if name == "openai_api_key" then some (.s c.openai_api_key)
  else if name == "model" then some (.s c.model)
  else if name == "screenshot_scale" then some (.q c.screenshot_scale)
  else if name == "action_delay" then some (.q c.action_delay)
  else if name == "max_actions_per_task" then some (.n c.max_actions_per_task)
  else if name == "max_retries" then some (.n c.max_retries)
  else if name == "confirmation_required" then some (.b c.confirmation_required)
  else if name == "ocr_enabled" then some (.b c.ocr_enabled)
  else if name == "dry_run" then some (.b c.dry_run)
  else if name == "max_task_duration" then some (.n c.max_task_duration)
  else if name == "action_timeout" then some (.n c.action_timeout)
  else if name == "app_blacklist" then some (.strs c.app_blacklist)
  else if name == "app_whitelist" then some (.optStrs c.app_whitelist)
  else if name == "confirm_file_operations" then some (.b c.confirm_file_operations)
  else if name == "enable_audit_logging" then some (.b c.enable_audit_logging)
  else if name == "audit_log_path" then some (.s c.audit_log_path)
  else if name == "session_storage_enabled" then some (.b c.session_storage_enabled)
  else if name == "session_dir" then some (.s c.session_dir)
  else if name == "change_detection_threshold" then some (.q c.change_detection_threshold)
  else if name == "key_press_delay" then some (.q c.key_press_delay)
  else if name == "file_dialog_timeout" then some (.q c.file_dialog_timeout)
  else none

/- ────────────────────────────────────────────────────────────────────────
   String scanning utilities, modelling the regular expressions of
   src/vercept/safety.py over ASCII text
   ──────────────────────────────────────────────────────────────────────── -/

/-- Word character for the regex word boundary, the underscore and the
alphanumerics (the Python patterns operate on typed shell text, ASCII). -/
def isWordChar (c : Char) : Bool := c.isAlphanum || c == '_'

/-- A word boundary holds before the match position when there is no
previous character or the previous character is not a word character. -/
def boundaryBefore : Option Char → Bool
  | none => true
  | some p => !isWordChar p

/-- A word boundary holds after the match when the remaining text is empty
or starts with a non-word character. -/
def boundaryAfterList : List Char → Bool
  | [] => true
  | c :: _ => !isWordChar c

/-- Case-insensitive literal match at the head of the text; the pattern is
given in lowercase.  Returns the rest of the text after the match. -/
def matchLit : List Char → List Char → Option (List Char)
  | [], cs => some cs
  | _ :: _, [] => none
  | p :: ps, c :: cs => if c.toLower == p then matchLit ps cs else none

/-- Try a position matcher at every position of the text, threading the
previous character for boundary checks (models re.search). -/
def scanFrom (f : Option Char → List Char → Bool) : Option Char → List Char → Bool
  | prev, [] => f prev []
  | prev, c :: rest => f prev (c :: rest) || scanFrom f (some c) rest

/-- Matcher for a whole word with boundaries on both sides. -/
def wordMatcher (w : List Char) (prev : Option Char) (cs : List Char) : Bool :=
  boundaryBefore prev &&
    match matchLit w cs with
    | some rest => boundaryAfterList rest
    | none => false

/-- Case-insensitive whole-word containment: the regex \bw\b. -/
def containsWord (w : String) (s : String) : Bool :=
  scanFrom (wordMatcher (w.data.map Char.toLower)) none s.data

/-- Matcher for a bare substring, no boundaries. -/
def substrMatcher (w : List Char) (_prev : Option Char) (cs : List Char) : Bool :=
  (matchLit w cs).isSome

/-- Case-insensitive substring containment (the `password` pattern). -/
def containsCI (w : String) (s : String) : Bool :=
  scanFrom (substrMatcher (w.data.map Char.toLower)) none s.data

/-- Consume a maximal run of whitespace (regex \s*). -/
def spacesStar : List Char → List Char
  | [] => []
  | c :: rest => if c.isWhitespace then spacesStar rest else c :: rest

/-- Consume at least one whitespace character (regex \s+); the literal that
follows in each pattern is non-whitespace, so maximal munch is exact. -/
def spacesPlus : List Char → Option (List Char)
  | [] => none
  | c :: rest => if c.isWhitespace then some (spacesStar rest) else none

/-- Matcher for the pattern \brm\s+-rf\b. -/
def rmDashRfMatcher (prev : Option Char) (cs : List Char) : Bool :=
  boundaryBefore prev &&
    match matchLit ['r', 'm'] cs with
    | some rest1 =>
      match spacesPlus rest1 with
      | some rest2 =>
        match matchLit ['-', 'r', 'f'] rest2 with
        | some rest3 => boundaryAfterList rest3
        | none => false
      | none => false
    | none => false

def containsRmRf (s : String) : Bool := scanFrom rmDashRfMatcher none s.data

/-- Matcher for the pattern \bdd\s+if= (no trailing boundary). -/
def ddIfMatcher (prev : Option Char) (cs : List Char) : Bool :=
  boundaryBefore prev &&
    match matchLit ['d', 'd'] cs with
    | some rest1 =>
      match spacesPlus rest1 with
      | some rest2 => (matchLit ['i', 'f', '='] rest2).isSome
      | none => false
    | none => false

def containsDdIf (s : String) : Bool := scanFrom ddIfMatcher none s.data

/-- Match the word bash with a trailing boundary at the head of the text.
The leading boundary always holds at the call sites: the previous character
is a pipe or whitespace, never a word character. -/
def bashAtHead (cs : List Char) : Bool :=
  match matchLit ['b', 'a', 's', 'h'] cs with
  | some rest => boundaryAfterList rest
  | none => false

/-- Scan the rest of the current line (the regex dot does not cross a
newline) for a pipe; after a pipe, skip optional whitespace (which may span
newlines, as \s does) and require the word bash. -/
def pipeThenBash : List Char → Bool
  | [] => false
  | c :: rest =>
    if c == '\n' then false
    else if c == '|' then bashAtHead (spacesStar rest) || pipeThenBash rest
    else pipeThenBash rest

/-- Matcher for the pattern \bcurl\b.*\|\s*\bbash\b. -/
def curlBashMatcher (prev : Option Char) (cs : List Char) : Bool :=
  boundaryBefore prev &&
    match matchLit ['c', 'u', 'r', 'l'] cs with
    | some rest => boundaryAfterList rest && pipeThenBash rest
    | none => false

def containsCurlPipeBash (s : String) : Bool := scanFrom curlBashMatcher none s.data

/-- The RISKY_TEXT_PATTERNS scan of safety.py (lines 14-22 and 94-99), in
pattern order; one reason string per matching pattern. -/
def riskyTextReasons (text : String) : List String :=
  (if containsWord "sudo" text then ["Text contains risky pattern: \\bsudo\\b"] else []) ++
  (if containsRmRf text then ["Text contains risky pattern: \\brm\\s+-rf\\b"] else []) ++
  (if containsWord "mkfs" text then ["Text contains risky pattern: \\bmkfs\\b"] else []) ++
  (if containsDdIf text then ["Text contains risky pattern: \\bdd\\s+if="] else []) ++
  (if containsWord "format" text then ["Text contains risky pattern: \\bformat\\b"] else []) ++
  (if containsCI "password" text then ["Text contains risky pattern: password"] else []) ++
  (if containsCurlPipeBash text then ["Text contains risky pattern: curl pipe bash"] else [])

/- ────────────────────────────────────────────────────────────────────────
   SafetyGuard  (src/vercept/safety.py)
   ──────────────────────────────────────────────────────────────────────── -/

/-- safety.py RISKY_HOTKEYS (lines 25-29); Python sets of key names,
modelled as lists (only membership is used). -/
def RISKY_HOTKEYS : List (List String) :=
  [["command", "delete"], ["command", "backspace"], ["command", "q"]]

/-- safety.py SENSITIVE_FILE_EXTENSIONS (lines 32-35). -/
def SENSITIVE_FILE_EXTENSIONS : List String :=
  [".env", ".pem", ".key", ".p12", ".pfx", ".crt", ".cer",
   ".ssh", ".gpg", ".pgp", ".kdbx", ".1password"]

/-- Key normalization of safety.py lines 104-113. -/
def normalizeKey (k : String) : String :=
  if k == "cmd" || k == "command" then "command"
  else if k == "del" || k == "delete" then "delete"
  else if k == "backspace" then "backspace"
  else k

/-- Risky-hotkey detection of safety.py lines 102-119: one reason per risky
combo that is a subset of the normalized pressed keys.  The source
pretty-prints the sorted combo into the reason; the text is display-only. -/
def riskyHotkeyReasons (keys : List String) : List String :=
  let normalized := (keys.map String.toLower).map normalizeKey
  RISKY_HOTKEYS.filterMap (fun combo =>
    if combo.all (fun k => normalized.contains k) then
      some "Risky hotkey combination"
    else none)

/-- Enter/Return detection of safety.py lines 121-124. -/
def enterReturnReasons (keys : List String) : List String :=
  let keys_lower := keys.map String.toLower
  if keys_lower.any (fun k => k == "enter" || k == "return") then
    ["Pressing Enter may submit a form or run a command"]
  else []

/-- Characters of the basename, i.e. everything after the last slash. -/
def basenameChars (p : List Char) : List Char :=
  p.foldl (fun acc c => if c == '/' then [] else acc ++ [c]) []

/-- Scan for the extension of a basename, mirroring os.path.splitext: the
extension starts at the last dot, and is empty when every character before
that dot is itself a dot (leading dots do not start an extension).  State:
whether a non-dot character has been seen, whether the current candidate
has a non-dot character before its dot, and the candidate itself. -/
def extScan : List Char → Bool → Bool → Option (List Char) → List Char
  | [], _, stemOK, cur => if stemOK then cur.getD [] else []
  | c :: rest, nonDot, stemOK, cur =>
    if c == '.' then extScan rest nonDot nonDot (some ['.'])
    else extScan rest true stemOK
      (match cur with | some l => some (l ++ [c]) | none => none)

/-- os.path.splitext extension of a path (safety.py line 129). -/
def splitextExt (p : String) : String :=
  String.mk (extScan (basenameChars p.data) false false none)

/-- File-selection risk reasons of safety.py lines 127-133; reason text is
display-only. -/
def fileSelectReasons (cfg : VerceptConfig) (file_path : String) : List String :=
  let ext := (splitextExt file_path).toLower
  (if SENSITIVE_FILE_EXTENSIONS.contains ext then ["Selecting a sensitive file type"] else []) ++
  (if cfg.confirm_file_operations then ["File operation"] else [])

/-- Head-of-text literal match (case-sensitive), for substring search. -/
def leadMatch : List Char → List Char → Bool
  | [], _ => true
  | _ :: _, [] => false
  | n :: ns, h :: hs => n == h && leadMatch ns hs

/-- Substring containment over char lists (Python `needle in hay`). -/
def listContainsSub (hay needle : List Char) : Bool :=
  match hay with
  | [] => needle.isEmpty
  | _ :: t => leadMatch needle hay || listContainsSub t needle

/-- Python `needle in hay` on strings. -/
def strContainsSub (hay needle : String) : Bool := listContainsSub hay.data needle.data

namespace SafetyGuard

/-- safety.py `check_app_allowed` (lines 47-74): empty name passes; with a
whitelist, some whitelisted name must occur (lowercased) inside the app
name; otherwise no blacklisted name may occur inside the app name. -/
def check_app_allowed (cfg : VerceptConfig) (app_name : String) : Bool :=
  if app_name == "" then true
  else
    match cfg.app_whitelist with
    | some wl => wl.any (fun a => strContainsSub app_name.toLower a.toLower)
    | none => !(cfg.app_blacklist.any (fun b => strContainsSub app_name.toLower b.toLower))

/-- safety.py `block_sudo` (lines 166-174): a type action whose text matches
\bsudo\b (case-insensitive) is blocked unconditionally.  The console print
and audit write are side effects with no influence on the result. -/
def block_sudo (action : PAction) : Bool :=
  if action.action_type == some "type" then
    containsWord "sudo" ((action.params.getD Params.empty).text.getD "")
  else false

/-- safety.py `check` (lines 78-155).  `userApproves` is the outcome of the
Confirm.ask prompt (the human-in-the-loop oracle); audit logging and console
output are omitted as side effects.  Structure mirrors the source: risk
reasons are collected for type text, hotkeys, Enter/Return, and file
selection; a window_switch to a disallowed app returns False before the
prompt; with no risk reasons the action passes without a prompt. -/
def check (cfg : VerceptConfig) (action : PAction) (userApproves : Bool) : Bool :=
  if !cfg.confirmation_required then true
  else
    let action_type := action.action_type.getD ""
    let params := action.params.getD Params.empty
    let typeReasons :=
      if action_type == "type" then riskyTextReasons (params.text.getD "") else []
    let hotkeyReasons :=
      if action_type == "hotkey" then
        riskyHotkeyReasons (params.keys.getD []) ++ enterReturnReasons (params.keys.getD [])
      else []
    let fileReasons :=
      if action_type == "file_select" then
        fileSelectReasons cfg (params.file_path.getD "")
      else []
    if action_type == "window_switch"
        && !check_app_allowed cfg (params.app_name.getD "") then false
    else
      let risk_reasons := typeReasons ++ hotkeyReasons ++ fileReasons
      if risk_reasons.isEmpty then true else userApproves

/-- safety.py `action_count_ok` (lines 157-164). -/
def action_count_ok (cfg : VerceptConfig) (action_count : Nat) : Bool :=
  if cfg.max_actions_per_task ≤ action_count then false else true

end SafetyGuard

/- ────────────────────────────────────────────────────────────────────────
   Screen snapshots and pixel diff  (src/vercept/perception.py dataclass,
   src/vercept/screen_diff.py)
   ──────────────────────────────────────────────────────────────────────── -/

/-- A screenshot payload as seen by compare_screens: either the base64 data
fails to decode into an image (the except branch of screen_diff.py lines
23-27), or it decodes to an RGB image of a given size with a row-major pixel
list (channel values 0-255). -/
inductive PyImage where
  | undecodable
  | decoded (width height : Nat) (pixels : List (Nat × Nat × Nat))

/-- The ScreenState dataclass (perception.py lines 20-36), restricted to the
fields the control loop and verifier consume.  `ocr_text`, `elements`,
`timestamp` and the original pre-scale dimensions are read only during
prompt construction for the external model and are omitted. -/
structure ScreenState where
  screenshot : PyImage
  description : String := ""
  errors : String := ""
  active_app : String := ""
  loading : Bool := false
  screen_width : Nat := 0
  screen_height : Nat := 0
  perception_failed : Bool := false

/-- A VerificationResult: the dict shape shared by quick_verify and the
planner verify call.  Both producers populate every key, so the fields are
total. -/
structure VResult where
  success : Bool
  explanation : String
  task_complete : Bool
  confidence : String
  screen_changed : Bool

/-- Round half to even on an exact rational, as Python round does on the
binary float; the claims never depend on the rounded display value. -/
def pyRoundHalfEven (x : ℚ) : ℤ :=
  let f : ℤ := ⌊x⌋
  let r : ℚ := x - (f : ℚ)
  if r < 1/2 then f
  else if (1 : ℚ)/2 < r then f + 1
  else if f % 2 == 0 then f else f + 1

/-- round(x, 4) of screen_diff.py line 45. -/
def round4 (q : ℚ) : ℚ := (pyRoundHalfEven (q * 10000) : ℚ) / 10000

/-- Percent formatting with one decimal, modelling the .1 percent format
specifier used in the explanation strings; display-only. -/
def fmtPct (q : ℚ) : String :=
  let t : ℤ := pyRoundHalfEven (q * 1000)
  toString (t / 10) ++ "." ++ toString ((t % 10).natAbs) ++ "%"

/-- Absolute difference of two channel values (ImageChops.difference). -/
def chanDist (a b : Nat) : Nat := if a ≤ b then b - a else a - b

/-- Per-pixel difference magnitude: sum of the channel differences, compared
against 30 in screen_diff.py line 35. -/
def pixelDiffVal (p q : Nat × Nat × Nat) : Nat :=
  chanDist p.1 q.1 + chanDist p.2.1 q.2.1 + chanDist p.2.2 q.2.2

/-- Result of compare_screens: the significance flag and the reported diff
ratio.  The changed_regions list (unused by quick_verify and by the loop) is
omitted. -/
structure DiffInfo where
  changed : Bool
  diff_ratio : ℚ

/-- screen_diff.py `compare_screens` (lines 9-47).  A decode failure or a
size mismatch reports changed with ratio 1.0 (lines 26-30).  Otherwise the
fraction of pixel pairs whose difference sum exceeds 30 is compared against
the threshold; `changed` uses the raw ratio (line 37) while the reported
ratio is rounded to 4 places (line 45).  For an image decoded from real
data the pixel list has length width*height, so zipping the two equal-sized
lists pairs every pixel. -/
def compare_screens (before after : PyImage) (threshold : ℚ) : DiffInfo :=
  match before, after with
  | .decoded w1 h1 ps1, .decoded w2 h2 ps2 =>
    if w1 == w2 && h1 == h2 then
      let pairs := ps1.zip ps2
      let total := pairs.length
      let changed_count := pairs.countP (fun pq => decide (30 < pixelDiffVal pq.1 pq.2))
      let diff_ratio : ℚ := if 0 < total then (changed_count : ℚ) / (total : ℚ) else 0
      { changed := decide (threshold < diff_ratio), diff_ratio := round4 diff_ratio }
    else { changed := true, diff_ratio := 1 }
  | _, _ => { changed := true, diff_ratio := 1 }

/- ────────────────────────────────────────────────────────────────────────
   quick_verify  (src/vercept/state_verifier.py)
   ──────────────────────────────────────────────────────────────────────── -/

/-- Lexicographic comparison of char lists by code point, for sorted(). -/
def charListLe : List Char → List Char → Bool
  | [], _ => true
  | _ :: _, [] => false
  | a :: xs, b :: ys =>
    if a.val < b.val then true
    else if b.val < a.val then false
    else charListLe xs ys

def insertSorted (x : String) : List String → List String
  | [] => [x]
  | y :: ys => if charListLe x.data y.data then x :: y :: ys else y :: insertSorted x ys

/-- Python sorted() on a list of strings (insertion sort; order among equal
elements is irrelevant because equal strings are indistinguishable). -/
def sortStrings (l : List String) : List String := l.foldr insertSorted []

/-- state_verifier.py invisible_combos (lines 87-92). -/
def INVISIBLE_COMBOS : List (List String) :=
  [["cmd", "c"], ["cmd", "x"], ["command", "c"], ["command", "x"]]

/-- state_verifier.py `quick_verify` (lines 10-142), returning `none` for
the no-judgment fall-back-to-LLM outcome.  The Python explanation string for
key_press wraps the key name in single quotes; the quotes are elided here,
the text being display-only. -/
def quick_verify (before after : ScreenState) (action : PAction) (threshold : ℚ) :
    Option VResult :=
  let action_type := action.action_type.getD ""
  let diff := compare_screens before.screenshot after.screenshot threshold
  let screen_changed := diff.changed
  let diff_ratio := diff.diff_ratio
  if action_type == "scroll" then
    if screen_changed then
      some { success := true
             explanation := "Screen changed after scroll (diff " ++ fmtPct diff_ratio ++ ")."
             task_complete := false, confidence := "high", screen_changed := true }
    else
      some { success := false
             explanation := "Screen did not change after scroll — may be at page boundary."
             task_complete := false, confidence := "medium", screen_changed := false }
  else if action_type == "wait" then
    some { success := true, explanation := "Wait completed."
           task_complete := false, confidence := "high", screen_changed := screen_changed }
  else if action_type == "type" then
    if screen_changed then
      some { success := true
             explanation := "Screen changed after typing (diff " ++ fmtPct diff_ratio ++ ")."
             task_complete := false, confidence := "medium", screen_changed := true }
    else none
  else if action_type == "key_press" then
    let key := (action.params.getD Params.empty).key.getD ""
    if screen_changed then
      some { success := true
             explanation := "Screen changed after pressing " ++ key ++ "."
             task_complete := false, confidence := "medium", screen_changed := true }
    else none
  else if action_type == "hotkey" then
    let keys := (action.params.getD Params.empty).keys.getD []
    let keys_lower := keys.map String.toLower
    let is_invisible := INVISIBLE_COMBOS.any (fun combo =>
      sortStrings keys_lower == sortStrings combo)
    if is_invisible then
      some { success := true
             explanation := "Hotkey " ++ String.intercalate "+" keys
               ++ " executed (no visible change expected)."
             task_complete := false, confidence := "medium", screen_changed := screen_changed }
    else if screen_changed then
      some { success := true
             explanation := "Screen changed after hotkey " ++ String.intercalate "+" keys ++ "."
             task_complete := false, confidence := "medium", screen_changed := true }
    else none
  else if action_type == "click" || action_type == "double_click"
      || action_type == "right_click" || action_type == "triple_click" then
    if screen_changed && decide ((5 : ℚ)/100 < diff_ratio) then
      some { success := true
             explanation := "Significant screen change after " ++ action_type
               ++ " (diff " ++ fmtPct diff_ratio ++ ")."
             task_complete := false, confidence := "medium", screen_changed := true }
    else none
  else if action_type == "navigate" then
    some { success := true, explanation := "navigate executed; browser is loading the URL."
           task_complete := false, confidence := "high", screen_changed := screen_changed }
  else none

/- ────────────────────────────────────────────────────────────────────────
   Agent control loop, one iteration  (src/vercept/agent.py lines 125-343)
   ──────────────────────────────────────────────────────────────────────── -/

/-- agent.py line 19. -/
def FALLBACK_THRESHOLD : Nat := 2

/-- agent.py line 21. -/
def ABORT_THRESHOLD : Nat := 5

/-- Python dict merge on two action dicts, fallback keys winning on
conflict: the value of each modelled key in the merge is the fallback value
when the key is present in the fallback dict, the original value otherwise
(agent.py line 208). -/
def mergeActions (a fb : PAction) : PAction :=
  .mk (fb.action_type <|> a.action_type) (fb.params <|> a.params)
    (fb.reasoning <|> a.reasoning) (fb.is_final <|> a.is_final)
    (fb.confidence <|> a.confidence) (fb.fallback_action <|> a.fallback_action)

/-- Key assignment `action["reasoning"] = r` on a fresh dict. -/
def PAction.setReasoning (a : PAction) (r : String) : PAction :=
  match a with
  | .mk t p _ f c fb => .mk t p (some r) f c fb

/-- Truthiness of `action.get("fallback_action")`: the key is present and
its dict value is non-empty. -/
def truthyFallback (action : PAction) : Bool :=
  match action.fallback_action with
  | some fb => fb.isTruthy
  | none => false

/-- agent.py fallback substitution (lines 196-214).  The source builds a new
dict rather than mutating the proposal; in this pure embedding the input
action is immutable.  The `none` inner case is unreachable because the guard
requires a truthy fallback. -/
def applyFallback (consecutive_failures : Nat) (action : PAction) : PAction :=
  if decide (FALLBACK_THRESHOLD ≤ consecutive_failures)
      && truthyFallback action
      && (action.confidence.getD "high" == "low"
          || action.confidence.getD "high" == "medium") then
    match action.fallback_action with
    | some fallback =>
      let original_reasoning := action.reasoning.getD ""
      let merged := mergeActions action fallback
      let fallback_reasoning := fallback.reasoning.getD ""
      if fallback_reasoning != "" && fallback_reasoning != original_reasoning then
        merged.setReasoning ("[Fallback] " ++ fallback_reasoning ++
          (if original_reasoning != "" then " (was: " ++ original_reasoning ++ ")" else ""))
      else merged
    | none => action
  else action

/-- Verification dispatch of agent.py lines 293-305: use the heuristic
judgment when present, otherwise call the planner verifier.  The second
component counts the invocations of Planner.verify_success performed by the
dispatch — the source calls it exactly once, in the None branch, and never
builds a result of its own. -/
def dispatchVerification (quick : Option VResult) (llm : VResult) : VResult × Nat :=
  match quick with
  | some v => (v, 0)
  | none => (llm, 1)

/-- Numeric view of an attribute value, used only in the dead branch of the
loading-timeout comparison (the attribute in question does not exist). -/
def AttrVal.asQ : AttrVal → ℚ
  | .q v => v
  | .n v => v
  | _ => 0

/-- Responses of the external collaborators consumed during one loop
iteration: the wall clock at the pre-checks (`now0`), the re-captured screen
of the loading branch, the planner proposal, the user confirmation, the
executor result string, the post-execution capture, the planner verify
result, and the clock value recorded into the action entry (`nowRec`). -/
structure CycleOracles where
  now0 : ℚ
  recaptured : ScreenState
  plannedAction : PAction
  userApproves : Bool
  execResult : String
  newScreen : ScreenState
  llmVerify : VResult
  nowRec : ℚ

/-- Outcome of one iteration of the while-loop body: a break with a reason
(`stop`), a completion break (`complete`), an uncaught interpreter fault
(`fault`, carrying the missing attribute name), or the next iteration state
(`next`, carrying the working snapshot, the memory, and the loading timer). -/
inductive CycleOutcome where
  | stop (reason : String) (memory : TaskMemory)
  | complete (memory : TaskMemory)
  | fault (attr : String)
  | next (screen : ScreenState) (memory : TaskMemory) (loading_wait_start : Option ℚ)

/-- One iteration of Agent._run_loop (agent.py lines 130-343).  Console
output; the `confidence` and `screen_changed` reads that only feed display
(lines 219, 236-243, 310, 333-341); and time.sleep are omitted as effectless.
In the loading branch with a started timer the source reads
`self.config.loading_wait_timeout` (line 162); VerceptConfig declares no such
field, so the attribute lookup returns `none` and the iteration ends in an
interpreter fault — the inner comparison is kept for the shape of the source
but is unreachable.  When `screen.loading` is false the timer is reset (line
174), so every continuing outcome below the loading branch carries a `none`
timer. -/
def runCycle (cfg : VerceptConfig) (screen : ScreenState) (memory : TaskMemory)
    (loading_wait_start : Option ℚ) (o : CycleOracles) : CycleOutcome :=
  if !SafetyGuard.action_count_ok cfg memory.action_count then
    .stop "action_limit" memory
  else if (cfg.max_task_duration : ℚ) < o.now0 - memory.started_at then
    .stop "duration_limit" memory
  else if screen.active_app != "" && !SafetyGuard.check_app_allowed cfg screen.active_app then
    .stop "restricted_app" memory
  else if screen.loading then
    match loading_wait_start with
    | none => .next o.recaptured memory (some o.now0)
    | some start =>
      match cfg.getattr "loading_wait_timeout" with
      | none => .fault "loading_wait_timeout"
      | some v =>
        if v.asQ < o.now0 - start then .stop "loading_timeout" memory
        else .next o.recaptured memory loading_wait_start
  else
    if ABORT_THRESHOLD ≤ memory.consecutive_failures then
      .stop "failure_streak" memory
    else
      let action := applyFallback memory.consecutive_failures o.plannedAction
      let action_type := action.action_type.getD "unknown"
      let is_final := action.is_final.getD false
      if is_final || action_type == "done" then
        .complete { memory with completed := true }
      else if SafetyGuard.block_sudo action then
        .next screen (memory.add_action action "blocked_sudo" false true o.nowRec) none
      else if !SafetyGuard.check cfg action o.userApproves then
        .next screen (memory.add_action action "skipped_by_user" false true o.nowRec) none
      else
        let result := o.execResult
        let new_screen := o.newScreen
        if new_screen.perception_failed then
          .next screen (memory.add_action action "perception_failed" false false o.nowRec) none
        else
          let verification :=
            (dispatchVerification
              (quick_verify screen new_screen action cfg.change_detection_threshold)
              o.llmVerify).1
          let success := verification.success
          let explanation := verification.explanation
          let task_complete := verification.task_complete
          let memory2 := memory.add_action action
            (if explanation != "" then explanation else result) success false o.nowRec
          if task_complete then .complete { memory2 with completed := true }
          else .next new_screen memory2 none

/- ────────────────────────────────────────────────────────────────────────
   The fallback-substitution claim: condition, substituted value, and the
   counterexample to the unconditional fallback note
   ──────────────────────────────────────────────────────────────────────── -/

/-- Substitution condition, in the words shared by the claim and the spec
(sections 4.1 step 5 and 8): the failure streak has reached the fallback
threshold, the proposal carries a non-empty fallback_action, and its
confidence is low or medium. -/
def fallbackEligible (cf : Nat) (action : PAction) : Bool :=
  decide (FALLBACK_THRESHOLD ≤ cf) && truthyFallback action
    && (action.confidence.getD "high" == "low"
        || action.confidence.getD "high" == "medium")

/-- The substituted value of the amended claim: the non-destructive merge of
the proposal and its fallback with fallback fields winning on conflict; the
reasoning is prefixed with a fallback note quoting the original reasoning
exactly when the fallback carries a non-empty reasoning of its own distinct
from the original (agent.py lines 209-214).  The unamended claim asks for
the note unconditionally; `fallback_note_counterexample` shows the code
attaches none when the fallback brings no reasoning. -/
def fallbackSubstituted (action : PAction) : PAction :=
  match action.fallback_action with
  | some fb =>
    let origR := action.reasoning.getD ""
    let merged := mergeActions action fb
    let fbR := fb.reasoning.getD ""
    if fbR != "" && fbR != origR then
      merged.setReasoning ("[Fallback] " ++ fbR ++
        (if origR != "" then " (was: " ++ origR ++ ")" else ""))
    else merged
  | none => action

def fbC4 : PAction := .mk (some "scroll") none none none none none

def actC4 : PAction := .mk (some "click") none (some "orig") none (some "low") (some fbC4)

/-- Claim C4 counterexample: a proposal whose fallback carries only an
action_type and no reasoning of its own.  The substitution condition holds
and the fallback is substituted (the effective action_type becomes the
fallback one), yet the substituted action carries no fallback note at all:
its reasoning is the original reasoning, unchanged — not prefixed with a
note quoting it.  This refutes the claim as stated, whose parenthetical
requires the merged reasoning to be prefixed with a fallback note whenever
the substitution occurs. -/
theorem fallback_note_counterexample :
    fallbackEligible FALLBACK_THRESHOLD actC4 = true
    ∧ (applyFallback FALLBACK_THRESHOLD actC4).action_type = some "scroll"
    ∧ actC4.action_type = some "click"
    ∧ (applyFallback FALLBACK_THRESHOLD actC4).reasoning = actC4.reasoning
    ∧ (applyFallback FALLBACK_THRESHOLD actC4).reasoning = some "orig"
    ∧ (((applyFallback FALLBACK_THRESHOLD actC4).reasoning.getD "").startsWith
        "[Fallback]") = false :=
  ⟨rfl, rfl, rfl, rfl, rfl, rfl⟩

/-- Claim C4, amended: the planner proposal is replaced by the merged
fallback action if and only if `consecutive_failures` is at least the
fallback threshold AND the action carries a non-empty fallback_action AND
its confidence is low or medium; the substituted value is the merge with
fallback fields winning on conflict, its reasoning prefixed with a fallback
note quoting the original reasoning when the fallback carries a distinct
non-empty reasoning of its own, and left as the merged reasoning otherwise;
when the condition fails the proposal passes through unchanged.  The
substitution builds a new value — `applyFallback` is a pure function of the
proposal, so the original is never mutated. -/
theorem fallback_substitution_iff (cf : Nat) (action : PAction) :
    applyFallback cf action
      = if fallbackEligible cf action then fallbackSubstituted action else action := by
  unfold applyFallback fallbackEligible fallbackSubstituted
  split <;> (try split) <;> rfl

/- ────────────────────────────────────────────────────────────────────────
   Claim C2: the loading-timeout path raises an AttributeError
   ──────────────────────────────────────────────────────────────────────── -/

/-- Claim C2: the loading-timeout path is supposed to abort the run with a
readable reason and never raise a process-level fault.  The code cannot do
so: on any capture cycle that finds `loading = true` with the loading timer
already started, agent.py line 162 reads `self.config.loading_wait_timeout`,
an attribute that VerceptConfig does not declare, so the iteration ends in
an interpreter fault (AttributeError) for every configuration — the timeout
comparison and the abort are unreachable. -/
theorem loading_timeout_attribute_fault (cfg : VerceptConfig) (screen : ScreenState)
    (m : TaskMemory) (start : ℚ) (o : CycleOracles)
    (h1 : SafetyGuard.action_count_ok cfg m.action_count = true)
    (h2 : ¬ ((cfg.max_task_duration : ℚ) < o.now0 - m.started_at))
    (h3 : (screen.active_app != ""
        && !SafetyGuard.check_app_allowed cfg screen.active_app) = false)
    (h4 : screen.loading = true) :
    runCycle cfg screen m (some start) o = .fault "loading_wait_timeout"
    ∧ cfg.getattr "loading_wait_timeout" = none := by
  have hg : cfg.getattr "loading_wait_timeout" = none := rfl
  refine ⟨?_, hg⟩
  unfold runCycle
  simp [h1, h3, h4, hg, if_neg h2]

def cfgW : VerceptConfig := { openai_api_key := "k" }

def screenLoadingW : ScreenState := { screenshot := .undecodable, loading := true }

def memW : TaskMemory := TaskMemory.fresh "open notes" "ab12cd34" 0

def waitActW : PAction := .mk (some "wait") none none none none none

def llmW : VResult :=
  { success := false, explanation := "llm judgment", task_complete := false
    confidence := "low", screen_changed := false }

def oLoadingW : CycleOracles :=
  { now0 := 1, recaptured := screenLoadingW, plannedAction := waitActW
    userApproves := true, execResult := "", newScreen := screenLoadingW
    llmVerify := llmW, nowRec := 1 }

theorem loading_timeout_attribute_fault_witness :
    runCycle cfgW screenLoadingW memW (some 0) oLoadingW = .fault "loading_wait_timeout"
    ∧ cfgW.getattr "loading_wait_timeout" = none :=
  loading_timeout_attribute_fault cfgW screenLoadingW memW 0 oLoadingW rfl
    (by norm_num [cfgW, memW, TaskMemory.fresh, oLoadingW]) rfl rfl

/- ────────────────────────────────────────────────────────────────────────
   Claim C5: sudo hard block
   ──────────────────────────────────────────────────────────────────────── -/

/-- Claim C5: for every type action whose text contains the token sudo,
`block_sudo` returns true regardless of any other state; in the loop, on any
cycle whose effective action is such an action, the step is recorded as
neutral with result blocked_sudo and the loop continues without executing —
the outcome carries the unchanged working snapshot and a memory whose
`consecutive_failures` is unchanged. -/
theorem sudo_block_neutral (cfg : VerceptConfig) (screen : ScreenState)
    (m : TaskMemory) (lws : Option ℚ) (o : CycleOracles) (act : PAction)
    (hact : applyFallback m.consecutive_failures o.plannedAction = act)
    (htype : act.action_type = some "type")
    (hsudo : containsWord "sudo" ((act.params.getD Params.empty).text.getD "") = true)
    (hfin : act.is_final.getD false = false)
    (h1 : SafetyGuard.action_count_ok cfg m.action_count = true)
    (h2 : ¬ ((cfg.max_task_duration : ℚ) < o.now0 - m.started_at))
    (h3 : (screen.active_app != ""
        && !SafetyGuard.check_app_allowed cfg screen.active_app) = false)
    (h4 : screen.loading = false)
    (h5 : m.consecutive_failures < ABORT_THRESHOLD) :
    SafetyGuard.block_sudo act = true
    ∧ runCycle cfg screen m lws o
        = .next screen (m.add_action act "blocked_sudo" false true o.nowRec) none
    ∧ (m.add_action act "blocked_sudo" false true o.nowRec).consecutive_failures
        = m.consecutive_failures := by
  have hblock : SafetyGuard.block_sudo act = true := by
    unfold SafetyGuard.block_sudo
    simp [htype, hsudo]
  refine ⟨hblock, ?_, add_action_neutral m act "blocked_sudo" false o.nowRec⟩
  unfold runCycle
  simp [h1, h3, h4, hact, htype, hfin, hblock, if_neg h2, if_neg (Nat.not_le.mpr h5)]

def sudoActW : PAction :=
  .mk (some "type") (some { text := some "sudo rm -rf /" }) none none none none

def screenIdleW : ScreenState := { screenshot := .undecodable }

def oSudoW : CycleOracles :=
  { now0 := 1, recaptured := screenIdleW, plannedAction := sudoActW
    userApproves := true, execResult := "", newScreen := screenIdleW
    llmVerify := llmW, nowRec := 1 }

theorem sudo_block_neutral_witness :
    SafetyGuard.block_sudo sudoActW = true
    ∧ runCycle cfgW screenIdleW memW none oSudoW
        = .next screenIdleW (memW.add_action sudoActW "blocked_sudo" false true 1) none
    ∧ (memW.add_action sudoActW "blocked_sudo" false true 1).consecutive_failures
        = memW.consecutive_failures :=
  sudo_block_neutral cfgW screenIdleW memW none oSudoW sudoActW rfl rfl rfl rfl rfl
    (by norm_num [cfgW, memW, TaskMemory.fresh, oSudoW]) rfl rfl
    (by norm_num [memW, TaskMemory.fresh, ABORT_THRESHOLD])

/- ────────────────────────────────────────────────────────────────────────
   Claim C6: perception failure after execution
   ──────────────────────────────────────────────────────────────────────── -/

/-- Claim C6: when the post-execution capture reports
`perception_failed = true`, the loop records the step as a non-neutral
failure with result perception_failed (so `consecutive_failures` goes up by
one), keeps the previous working snapshot for the next planning cycle, and
continues rather than terminating. -/
theorem perception_failure_keeps_snapshot (cfg : VerceptConfig) (screen : ScreenState)
    (m : TaskMemory) (lws : Option ℚ) (o : CycleOracles) (act : PAction)
    (hact : applyFallback m.consecutive_failures o.plannedAction = act)
    (hfin : (act.is_final.getD false || (act.action_type.getD "unknown") == "done") = false)
    (hblock : SafetyGuard.block_sudo act = false)
    (hcheck : SafetyGuard.check cfg act o.userApproves = true)
    (hperc : o.newScreen.perception_failed = true)
    (h1 : SafetyGuard.action_count_ok cfg m.action_count = true)
    (h2 : ¬ ((cfg.max_task_duration : ℚ) < o.now0 - m.started_at))
    (h3 : (screen.active_app != ""
        && !SafetyGuard.check_app_allowed cfg screen.active_app) = false)
    (h4 : screen.loading = false)
    (h5 : m.consecutive_failures < ABORT_THRESHOLD) :
    runCycle cfg screen m lws o
      = .next screen (m.add_action act "perception_failed" false false o.nowRec) none
    ∧ (m.add_action act "perception_failed" false false o.nowRec).consecutive_failures
        = m.consecutive_failures + 1 := by
  refine ⟨?_, add_action_failure m act "perception_failed" o.nowRec⟩
  unfold runCycle
  simp [h1, h3, h4, hact, hfin, hblock, hcheck, hperc, if_neg h2,
    if_neg (Nat.not_le.mpr h5)]

def scrollActW : PAction := .mk (some "scroll") none none none none none

def screenPercFailW : ScreenState :=
  { screenshot := .undecodable, perception_failed := true }

def oPercW : CycleOracles :=
  { now0 := 1, recaptured := screenIdleW, plannedAction := scrollActW
    userApproves := true, execResult := "scrolled", newScreen := screenPercFailW
    llmVerify := llmW, nowRec := 1 }

theorem perception_failure_keeps_snapshot_witness :
    runCycle cfgW screenIdleW memW none oPercW
      = .next screenIdleW (memW.add_action scrollActW "perception_failed" false false 1) none
    ∧ (memW.add_action scrollActW "perception_failed" false false 1).consecutive_failures
        = memW.consecutive_failures + 1 :=
  perception_failure_keeps_snapshot cfgW screenIdleW memW none oPercW scrollActW
    rfl rfl rfl rfl rfl rfl
    (by norm_num [cfgW, memW, TaskMemory.fresh, oPercW]) rfl rfl
    (by norm_num [memW, TaskMemory.fresh, ABORT_THRESHOLD])

/- ────────────────────────────────────────────────────────────────────────
   Claims C7, C8, C9: quick_verify policy
   ──────────────────────────────────────────────────────────────────────── -/

/-- Claim C7: on a scroll action, quick_verify always returns a judgment:
success true with confidence high when the screen changed (the diff exceeds
the threshold), success false with confidence medium when it did not; in
both cases the dispatch uses that judgment and performs zero calls to the
fallback verifier. -/
theorem scroll_quick_verify (b a : ScreenState) (act : PAction) (thr : ℚ)
    (llm : VResult) (h : act.action_type.getD "" = "scroll") :
    ∃ v, quick_verify b a act thr = some v
      ∧ v.success = (compare_screens b.screenshot a.screenshot thr).changed
      ∧ v.confidence
          = (if (compare_screens b.screenshot a.screenshot thr).changed
             then "high" else "medium")
      ∧ v.task_complete = false
      ∧ dispatchVerification (quick_verify b a act thr) llm = (v, 0) := by
  cases hc : (compare_screens b.screenshot a.screenshot thr).changed with
  | false =>
    have hqv : quick_verify b a act thr
        = some { success := false
                 explanation := "Screen did not change after scroll — may be at page boundary."
                 task_complete := false, confidence := "medium", screen_changed := false } := by
      unfold quick_verify
      simp [h, hc]
    exact ⟨_, hqv, by simp [hc], by simp [hc], rfl, by rw [hqv]; rfl⟩
  | true =>
    have hqv : quick_verify b a act thr
        = some { success := true
                 explanation := "Screen changed after scroll (diff "
                   ++ fmtPct (compare_screens b.screenshot a.screenshot thr).diff_ratio ++ ")."
                 task_complete := false, confidence := "high", screen_changed := true } := by
      unfold quick_verify
      simp [h, hc]
    exact ⟨_, hqv, by simp [hc], by simp [hc], rfl, by rw [hqv]; rfl⟩

/-- Screen pair with an empty decoded image: zero pixels, so the diff ratio
is 0 without a division, and no threshold below 0 is exceeded. -/
def emptyShotW : ScreenState := { screenshot := .decoded 0 0 [] }

theorem scroll_quick_verify_witness :
    ∃ v, quick_verify screenIdleW screenIdleW scrollActW 1 = some v
      ∧ v.success = (compare_screens screenIdleW.screenshot screenIdleW.screenshot 1).changed
      ∧ v.confidence
          = (if (compare_screens screenIdleW.screenshot screenIdleW.screenshot 1).changed
             then "high" else "medium")
      ∧ v.task_complete = false
      ∧ dispatchVerification (quick_verify screenIdleW screenIdleW scrollActW 1) llmW
          = (v, 0) :=
  scroll_quick_verify screenIdleW screenIdleW scrollActW 1 llmW rfl

/-- Claim C8: on a type action whose pixel diff does not exceed the
threshold, quick_verify returns no judgment (`none`), and the controller
dispatch then returns exactly the planner verify result with exactly one
invocation of the fallback verifier — no default success is synthesized. -/
theorem type_unchanged_defers (b a : ScreenState) (act : PAction) (thr : ℚ)
    (llm : VResult) (h : act.action_type.getD "" = "type")
    (hc : (compare_screens b.screenshot a.screenshot thr).changed = false) :
    quick_verify b a act thr = none
    ∧ dispatchVerification (quick_verify b a act thr) llm = (llm, 1) := by
  have hqv : quick_verify b a act thr = none := by
    unfold quick_verify
    simp [h, hc]
  exact ⟨hqv, by rw [hqv]; rfl⟩

def typeActW : PAction := .mk (some "type") (some { text := some "hello" }) none none none none

theorem type_unchanged_defers_witness :
    quick_verify emptyShotW emptyShotW typeActW 1 = none
    ∧ dispatchVerification (quick_verify emptyShotW emptyShotW typeActW 1) llmW
        = (llmW, 1) :=
  type_unchanged_defers emptyShotW emptyShotW typeActW 1 llmW rfl rfl

/-- Claim C9: whenever quick_verify returns a judgment rather than
no-judgment, that judgment has `task_complete = false` — the heuristic fast
path never declares the task complete by itself. -/
theorem quick_verify_not_complete (b a : ScreenState) (act : PAction) (thr : ℚ)
    (v : VResult) (h : quick_verify b a act thr = some v) :
    v.task_complete = false := by
  simp only [quick_verify] at h
  repeat' split at h
  all_goals first
    | (injection h with h2; subst h2; rfl)
    | (cases h)

theorem quick_verify_not_complete_witness :
    quick_verify screenIdleW screenIdleW waitActW 1
        = some { success := true, explanation := "Wait completed."
                 task_complete := false, confidence := "high", screen_changed := true }
    ∧ ({ success := true, explanation := "Wait completed."
         task_complete := false, confidence := "high", screen_changed := true } : VResult).task_complete
        = false :=
  ⟨rfl, quick_verify_not_complete screenIdleW screenIdleW waitActW 1 _ rfl⟩

end Vercept
